import Mathlib

/-!
Verification of the conversation client and orchestration layer of the
Chatbot-Fullstack repository, as a shallow embedding in Lean 4.

Embedded source files:
* `utils/errorHandling.ts` — `getErrorMessage`, `getErrorHint`
* `components/MessageInput.tsx` — `handleCSVFileSelect`,
  `handleImageFileSelect`, `handleSend` and its upload helpers
* the backend conversation core (intent classifier, dataset registry,
  analysis handlers, orchestrator) is not part of the checked-in sources;
  those definitions are modelled from the specification document and are
  marked as such in their doc comments.
-/

namespace Chatbot

/-! ## JavaScript value model for `utils/errorHandling.ts`

`getErrorMessage` receives an `any`.  We model the JavaScript values it can
inspect: strings, numbers, booleans, `null`, `undefined`, and objects, of
which only the `message` and `error` fields are ever read.  Field values are
again arbitrary values.  JavaScript truthiness decides each branch. -/

inductive JSValue where
  | vstr (s : String)
  | vnum (n : Int)
  | vbool (b : Bool)
  | vnull
  | vundefined
  | vobj (message : Option JSValue) (error : Option JSValue)

/-- JavaScript truthiness: `""`, `0`, `false`, `null`, `undefined` are falsy;
every object is truthy. -/
def truthy : JSValue → Bool
  | .vstr s => !(s = "")
  | .vnum n => !(n = 0)
  | .vbool b => b
  | .vnull => false
  | .vundefined => false
  | .vobj _ _ => true

/-- Truthiness of an optional field access (`error?.message`): an absent field
reads as `undefined`, which is falsy. -/
def truthyOpt : Option JSValue → Bool
  | Option.none => false
  | some v => truthy v

/-- The fixed fallback message of `getErrorMessage`. -/
def unexpectedErrorMessage : String := "An unexpected error occurred"

/-- Source `getErrorMessage` from `utils/errorHandling.ts`:
`if (typeof error === 'string') return error;
 if (error?.message) return error.message;
 if (error?.error) return error.error;
 return 'An unexpected error occurred'`.
On a non-string non-object input, `error?.message` and `error?.error` read as
`undefined` (falsy), so the fallback is returned. -/
def getErrorMessage (e : JSValue) : JSValue :=
  match e with
  | .vstr s => .vstr s
  | .vobj msg err =>
      if truthyOpt msg then msg.getD .vundefined
      else if truthyOpt err then err.getD .vundefined
      else .vstr unexpectedErrorMessage
  | _ => .vstr unexpectedErrorMessage

/-- Boolean substring test on character lists (the model of JavaScript
`String.prototype.includes`). -/
def listInfixOf (needle : List Char) : List Char → Bool
  | [] => needle.isEmpty
  | c :: t => needle.isPrefixOf (c :: t) || listInfixOf needle t

/-- JavaScript `hay.includes(needle)` on strings. -/
def strIncludes (hay needle : String) : Bool :=
  listInfixOf needle.data hay.data

/-- JavaScript `s.toLowerCase()` (ASCII case mapping, which covers every
trigger substring the code compares against). -/
def jsToLower (s : String) : String :=
  ⟨s.data.map Char.toLower⟩

/-- The API-key configuration hint returned by `getErrorHint`. -/
def apiKeyHint : String :=
  "🔑 To use real AI responses, configure your OPENAI_API_KEY in the .env file. See env.example for setup instructions."

/-- The chain of `message.includes(...)` checks of `getErrorHint`, in source
order, applied to the lowercased message. -/
def getErrorHintFromMessage (message : String) : Option String :=
  if strIncludes message "mock response" || strIncludes message "no api key" then
    some apiKeyHint
  else if strIncludes message "csv" && strIncludes message "url" then
    some "💡 Try adding '?raw=1' to GitHub URLs or ensure the URL points directly to a CSV file"
  else if strIncludes message "decode" || strIncludes message "encoding" then
    some "💡 The file might have encoding issues. Try saving as UTF-8 CSV"
  else if strIncludes message "too large" || strIncludes message "size" then
    some "💡 File is too large. Try uploading a smaller file or use URL instead"
  else if strIncludes message "network" || strIncludes message "fetch" then
    some "💡 Check your internet connection and try again"
  else if strIncludes message "timeout" then
    some "💡 Request timed out. The server might be busy, try again in a moment"
  else if strIncludes message "unauthorized" || strIncludes message "401" then
    some "💡 Authentication failed. Check your API key configuration"
  else if strIncludes message "forbidden" || strIncludes message "403" then
    some "💡 Access denied. You might not have permission for this resource"
  else if strIncludes message "not found" || strIncludes message "404" then
    some "💡 Resource not found. Check the URL or file path"
  else if strIncludes message "server error" || strIncludes message "500" then
    some "💡 Server error. Please try again later or contact support"
  else if strIncludes message "only csv files" || strIncludes message "only png and jpg" then
    some "💡 Please check the file format and try uploading a supported file type"
  else
    Option.none

/-- Source `getErrorHint` from `utils/errorHandling.ts`:
`const message = getErrorMessage(error).toLowerCase()` followed by the chain
of `includes` checks.  When `getErrorMessage` returns a non-string value
(possible when a `message`/`error` field holds a truthy non-string),
`.toLowerCase()` would raise a `TypeError`; that outcome is `Option.none` in
the outer option. -/
def getErrorHint (e : JSValue) : Option (Option String) :=
  match getErrorMessage e with
  | .vstr s => some (getErrorHintFromMessage (jsToLower s))
  | _ => Option.none

/-! ## `components/MessageInput.tsx`

The component's handlers are embedded as pure functions from the state they
read (React state values captured at render time plus the outcome of the
backend API calls they await) to the observable effects they perform:
Firestore document writes, backend API requests, and toasts. -/

/-- A browser `File` as far as the handlers inspect it. -/
structure JSFile where
  name : String
  size : Nat
  type : String
deriving Repr, DecidableEq

/-- Outcome of a file-picker change handler: which toast it showed, or which
file it stored as the pending attachment (`setSelectedFile`). -/
inductive SelectResult where
  | noFile
  | rejectedType (toastMessage : String)
  | rejectedSize (toastMessage : String)
  | accepted (f : JSFile)
deriving Repr, DecidableEq

/-- The CSV byte ceiling of `handleCSVFileSelect` (`20 * 1024 * 1024`). -/
def maxCSVSizeBytes : Nat := 20 * 1024 * 1024

/-- The image byte ceiling of `handleImageFileSelect` (`10 * 1024 * 1024`). -/
def maxImageSizeBytes : Nat := 10 * 1024 * 1024

/-- The allowed image MIME types of `handleImageFileSelect`. -/
def allowedImageTypes : List String := ["image/jpeg", "image/png", "image/jpg"]

/-- Source `handleCSVFileSelect` from `MessageInput.tsx`: reject unless
`file.name.toLowerCase().endsWith('.csv')`, then reject if
`file.size > maxSizeBytes`, otherwise `setSelectedFile(file)`. -/
def handleCSVFileSelect (file : Option JSFile) : SelectResult :=
  match file with
  | Option.none => .noFile
  | some f =>
      if !(List.isSuffixOf ".csv".data (jsToLower f.name).data) then
        .rejectedType "Only CSV files are allowed"
      else if f.size > maxCSVSizeBytes then
        .rejectedSize "File too large. Maximum size: 20MB"
      else
        .accepted f

/-- Source `handleImageFileSelect` from `MessageInput.tsx`: reject unless
`allowedTypes.includes(file.type)`, then reject if
`file.size > maxSizeBytes`, otherwise store preview and `setSelectedFile`. -/
def handleImageFileSelect (file : Option JSFile) : SelectResult :=
  match file with
  | Option.none => .noFile
  | some f =>
      if !(allowedImageTypes.contains f.type) then
        .rejectedType "Only PNG and JPG images are allowed"
      else if f.size > maxImageSizeBytes then
        .rejectedSize "File too large. Maximum size: 10MB"
      else
        .accepted f

/-! ### The CSV-URL pattern `/(https?:\/\/[^\s]+(\.csv))(?=\s|$)/g`

JavaScript regex semantics for this pattern: a match starts at a position
where the text has `http://` or `https://`; after the scheme, greedy
`[^\s]+` followed by the literal `.csv` and the lookahead `(?=\s|$)` succeed
exactly when the maximal run of non-whitespace characters after the scheme
is at least 5 characters long and ends in `.csv`.  `text.match(re)[0]` is
the match at the leftmost such position. -/

/-- The `\s` character class, restricted to the ASCII whitespace characters
(the inputs of interest contain no exotic Unicode spaces). -/
def jsWhitespace (c : Char) : Bool :=
  c = ' ' || c = '\t' || c = '\n' || c = '\r' || c = '\x0b' || c = '\x0c'

/-- JavaScript `s.trim()`: strip leading and trailing whitespace. -/
def jsTrim (s : String) : String :=
  ⟨((s.data.dropWhile fun c => jsWhitespace c).reverse.dropWhile fun c => jsWhitespace c).reverse⟩

/-- Attempt of the CSV-URL pattern anchored at the head of `cs`. -/
def csvUrlMatchHead (cs : List Char) : Option (List Char) :=
  let attempt := fun (scheme : List Char) =>
    if List.isPrefixOf scheme cs then
      let tok := List.takeWhile (fun c => !jsWhitespace c) (cs.drop scheme.length)
      if 5 ≤ tok.length && List.isSuffixOf ".csv".data tok then
        some (scheme ++ tok)
      else
        Option.none
    else
      Option.none
  match attempt "https://".data with
  | some m => some m
  | Option.none => attempt "http://".data

/-- Leftmost match of the CSV-URL pattern: try each start position from the
left, as the regex engine does. -/
def csvUrlMatchFrom : List Char → Option (List Char)
  | [] => Option.none
  | c :: rest =>
      match csvUrlMatchHead (c :: rest) with
      | some m => some m
      | Option.none => csvUrlMatchFrom rest

/-- JavaScript `text.match(/(https?:\/\/[^\s]+(\.csv))(?=\s|$)/g)` followed by `[0]`:
the first (leftmost) matched URL, if any. -/
def csvUrlFirstMatch (text : String) : Option String :=
  (csvUrlMatchFrom text.data).map fun cs => ⟨cs⟩

/-- JavaScript `hay.replace(pat, '')` with a string pattern: remove the first
occurrence of `pat`.  With an empty pattern the string is unchanged apart
from the (empty) insertion, i.e. it is returned as is. -/
def replaceFirst (pat : List Char) : List Char → List Char
  | [] => []
  | c :: t =>
      if List.isPrefixOf pat (c :: t) then (c :: t).drop pat.length
      else c :: replaceFirst pat t

/-- JavaScript `s.replace(pat, '')` on strings. -/
def stringReplaceFirst (s pat : String) : String :=
  if pat = "" then s else ⟨replaceFirst pat.data s.data⟩

/-! ### `handleSend` -/

/-- The component state that `handleSend` reads: React state values captured
at render time.  (`sessionId` is the captured store value; `setSessionId`
inside the handler does not change the captured binding.) -/
structure SendState where
  isLoading : Bool
  isUploading : Bool
  userPresent : Bool
  textInput : String
  selectedFile : Option JSFile
  chatId : Option String
  sessionId : Option String
deriving Repr, DecidableEq

/-- Outcomes of the awaited backend API calls, supplied by the environment:
whether each upload endpoint reports `ok`, the assistant text returned for an
image, and whether `sendChatMessage` succeeds. -/
structure ApiOracle where
  uploadCSVOk : String → Bool
  uploadCSVFromURLOk : String → Bool
  uploadImageOk : String → Bool
  imageText : String → String
  sendChatOk : Bool

/-- The externally observable effects of one `handleSend` run. -/
inductive Effect where
  | toastError (msg : String)
  | toastSuccess (msg : String)
  | createChatDoc
  | addMessageDoc (role : String) (content : String)
  | addUserImageDoc (filename : String)
  | updateChatLastMessage (content : String)
  | apiUploadCSV (filename : String)
  | apiUploadCSVFromURL (url : String)
  | apiUploadImage (filename : String)
  | apiSendChatMessage (content : String)
deriving Repr, DecidableEq

/-- The system message added after a successful CSV upload. -/
def csvUploadedSystemMessage : String :=
  "CSV uploaded successfully. You can try: \"Summarize the dataset\", \"Show basic stats\", or \"Which column has the most missing values?\""

/-- Source `uploadCSVFile` from `MessageInput.tsx`, as (effects, threw): throws when
no session id is captured; otherwise issues the upload request; on `ok` it
stores the CSV metadata, toasts success and (when a chat id is present —
`addSystemMessage` returns early without one) adds the system message; on
failure it toasts the error and rethrows. -/
def uploadCSVFileEffects (api : ApiOracle) (chatId sessionId : Option String)
    (f : JSFile) : List Effect × Bool :=
  match sessionId with
  | Option.none => ([], true)
  | some _ =>
      if api.uploadCSVOk f.name then
        (Effect.apiUploadCSV f.name :: Effect.toastSuccess "CSV uploaded successfully!" ::
          (match chatId with
           | some _ => [Effect.addMessageDoc "system" csvUploadedSystemMessage]
           | Option.none => []), false)
      else
        ([Effect.apiUploadCSV f.name, Effect.toastError "Failed to upload CSV"], true)

/-- Source `uploadCSVFromURL` from `MessageInput.tsx`; same shape as
`uploadCSVFileEffects` but against the CSV-from-URL endpoint. -/
def uploadCSVFromURLEffects (api : ApiOracle) (chatId sessionId : Option String)
    (url : String) : List Effect × Bool :=
  match sessionId with
  | Option.none => ([], true)
  | some _ =>
      if api.uploadCSVFromURLOk url then
        (Effect.apiUploadCSVFromURL url :: Effect.toastSuccess "CSV uploaded successfully!" ::
          (match chatId with
           | some _ => [Effect.addMessageDoc "system" csvUploadedSystemMessage]
           | Option.none => []), false)
      else
        ([Effect.apiUploadCSVFromURL url, Effect.toastError "Failed to upload CSV"], true)

/-- Source `uploadImage` from `MessageInput.tsx`: issues the image-chat request; on
`ok` it adds the user image message, the assistant reply and a success
toast (the message writes return early without a chat id); on failure it
toasts the error and rethrows. -/
def uploadImageEffects (api : ApiOracle) (chatId sessionId : Option String)
    (f : JSFile) : List Effect × Bool :=
  match sessionId with
  | Option.none => ([], true)
  | some _ =>
      if api.uploadImageOk f.name then
        (Effect.apiUploadImage f.name ::
          ((match chatId with
            | some _ => [Effect.addUserImageDoc f.name,
                Effect.addMessageDoc "assistant" (api.imageText f.name)]
            | Option.none => []) ++ [Effect.toastSuccess "Image processed successfully!"]), false)
      else
        ([Effect.apiUploadImage f.name, Effect.toastError "Failed to process image"], true)

/-- The plain-text tail of `handleSend`: when the remaining text is
non-empty, write the user message document, update the chat's last message,
call the backend chat endpoint, and toast the outcome. -/
def sendTextEffects (api : ApiOracle) (newText : String) : List Effect :=
  if newText = "" then []
  else
    [Effect.addMessageDoc "user" newText, Effect.updateChatLastMessage newText,
      Effect.apiSendChatMessage newText] ++
      (if api.sendChatOk then [Effect.toastSuccess "Message sent!"]
       else [Effect.toastError "Failed to send message"])

/-- Source `handleSend` from `MessageInput.tsx` as an effect trace.  Control flow of
the source: return on an in-flight send/upload or missing user; toast and
return on empty trimmed text with no file; create a chat when none exists;
upload a selected file (CSV by extension, else image by MIME prefix), and
when the text is empty stop after the upload; otherwise — only when no file
was selected — detect a CSV URL in the trimmed text, upload from the URL and
strip the first occurrence of the matched URL from the text; finally send
the remaining text, if any.  A throw from an awaited helper lands in the
outer catch, which toasts "Failed to send message". -/
def handleSendEffects (api : ApiOracle) (s : SendState) : List Effect :=
  if s.isLoading || s.isUploading || !s.userPresent then
    []
  else if (jsTrim s.textInput) = "" && s.selectedFile.isNone then
    [Effect.toastError "Please enter a message or select a file"]
  else
    let chatEff : List Effect := if s.chatId.isNone then [Effect.createChatDoc] else []
    match s.selectedFile with
    | some f =>
        let up : List Effect × Bool :=
          if List.isSuffixOf ".csv".data (jsToLower f.name).data then
            uploadCSVFileEffects api s.chatId s.sessionId f
          else if List.isPrefixOf "image/".data f.type.data then
            uploadImageEffects api s.chatId s.sessionId f
          else ([], false)
        if up.2 then
          chatEff ++ up.1 ++ [Effect.toastError "Failed to send message"]
        else if (jsTrim s.textInput) = "" then
          chatEff ++ up.1
        else
          chatEff ++ up.1 ++ sendTextEffects api (jsTrim s.textInput)
    | Option.none =>
        match csvUrlFirstMatch (jsTrim s.textInput) with
        | some url =>
            let up := uploadCSVFromURLEffects api s.chatId s.sessionId url
            if up.2 then
              chatEff ++ up.1 ++ [Effect.toastError "Failed to send message"]
            else
              chatEff ++ up.1 ++
                sendTextEffects api (jsTrim (stringReplaceFirst (jsTrim s.textInput) url))
        | Option.none =>
            chatEff ++ sendTextEffects api (jsTrim s.textInput)

/-- Effects that change persistent or backend state, as opposed to toasts. -/
def stateChanging : Effect → Bool
  | .toastError _ => false
  | .toastSuccess _ => false
  | _ => true

/-! ## The backend conversation core, modelled from the spec

The FastAPI backend (intent classifier, dataset registry, analysis handlers,
chat fallback adapter, orchestrator, renderer) is not among the checked-in
sources; only the repository documentation describes it.  The definitions in
this section are therefore modelled from the specification document
(sections 3, 4.1–4.6 and 7). -/

/-- Modelled from the spec: the closed set of intent tags (§3), with the
sentinel `none`. -/
inductive IntentTag where
  | summarize
  | stats
  | missing
  | histogram
  | schema
  | sample
  | none
deriving Repr, DecidableEq

/-- Modelled from the spec: the fixed trigger-phrase table of the intent
classifier (§4.2), one English and one Vietnamese phrasing per intent, in a
fixed priority order (the spec leaves the exact table open; §9 requires an
implementer to fix one explicitly, which this table does). -/
def triggerTable : List (List String × IntentTag) :=
  [(["summarize", "tóm tắt"], IntentTag.summarize),
   (["stats", "thống kê"], IntentTag.stats),
   (["missing", "thiếu"], IntentTag.missing),
   (["histogram", "biểu đồ"], IntentTag.histogram),
   (["schema", "cấu trúc"], IntentTag.schema),
   (["sample", "xem thử"], IntentTag.sample)]

/-- Modelled from the spec: `classify(text) -> IntentTag` (§4.2) — pure,
stateless, case-insensitive matching against the fixed table, first match in
priority order, `none` when no pattern matches. -/
def classify (text : String) : IntentTag :=
  let t := jsToLower text
  match triggerTable.find? (fun p => p.1.any (fun phrase => strIncludes t phrase)) with
  | some p => p.2
  | Option.none => IntentTag.none

/-- A session transcript: classifying each message of a call sequence in
order.  The classifier keeps no state, so this is a per-element map. -/
def classifySession (texts : List String) : List IntentTag :=
  texts.map classify

/-- Modelled from the spec: per-column data of a Dataset Entry that the
`missing`/`schema` handlers read — the column name, its inferred type and
its missing-value count, in declared column order (§3). -/
structure ColumnStat where
  name : String
  inferredType : String
  missingCount : Nat
deriving Repr, DecidableEq

/-- Modelled from the spec: a Dataset Entry (§3) — declared column order with
per-column statistics, post-sampling row count, pre-sampling row count, and
the downsampling flag. -/
structure DatasetEntry where
  columns : List ColumnStat
  rows : Nat
  originalRows : Nat
  sampled : Bool
deriving Repr, DecidableEq

/-- Modelled from the spec: the registration step of the Dataset Registry
(§4.1) on already-parsed rows — when the row count exceeds the configured
ceiling, deterministically keep the first `ceiling` rows and set the sampled
flag; otherwise keep everything with the flag unset.  The ceiling is
externally supplied configuration (§9). -/
def register (ceiling : Nat) (cols : List ColumnStat)
    (dataRows : List (List String)) : DatasetEntry :=
  let kept := if dataRows.length > ceiling then dataRows.take ceiling else dataRows
  { columns := cols
    rows := kept.length
    originalRows := dataRows.length
    sampled := dataRows.length > ceiling }

/-- Modelled from the spec: the handler error taxonomy (§7) reachable from
the analysis handlers. -/
inductive HandlerError where
  | noDataset
  | columnNotFound (column : String)
  | unsupportedType (column : String)
deriving Repr, DecidableEq

/-- Modelled from the spec: the single rendered block of a Response Envelope
(§3): text, table, image or alert. -/
inductive Block where
  | text (payload : String)
  | table (title : String) (rows : List (List String))
  | image (payload : String)
  | alert (message : String)
deriving Repr, DecidableEq

/-- Modelled from the spec: the Response Envelope (§3): status, exactly one
block, and the resolved intent in the debug metadata. -/
structure Envelope where
  success : Bool
  block : Block
  intent : IntentTag
deriving Repr, DecidableEq

/-- The column with the maximum missing-value count, ties broken in favour of
the column that comes first in declared order (§4.3, `missing`). -/
def maxMissingColumn : List ColumnStat → Option ColumnStat
  | [] => Option.none
  | c :: rest =>
      match maxMissingColumn rest with
      | Option.none => some c
      | some b => if b.missingCount > c.missingCount then some b else some c

/-- Modelled from the spec: the result of the `missing` handler (§4.3): the
column with the maximum missing count plus the full per-column breakdown. -/
structure MissingReport where
  topColumn : ColumnStat
  breakdown : List ColumnStat
deriving Repr, DecidableEq

/-- Modelled from the spec: the `missing` analysis handler (§4.3), given the
session's Dataset Entry when one is registered.  Without a registered entry
every handler fails with `NoDatasetError` (§4.3); a registered entry always
has at least one column (registration fails with `ParseError` on no columns,
§4.1), so `maxMissingColumn` finds a column. -/
def missingHandler (entry : Option DatasetEntry) : Except HandlerError MissingReport :=
  match entry with
  | Option.none => .error HandlerError.noDataset
  | some ds =>
      match maxMissingColumn ds.columns with
      | some top => .ok ⟨top, ds.columns⟩
      | Option.none => .error (HandlerError.columnNotFound "")

/-- Render a `MissingReport` as the `missing` handler's table block. -/
def renderMissingReport (r : MissingReport) : Block :=
  Block.table ("Most missing: " ++ r.topColumn.name)
    (r.breakdown.map fun c => [c.name, toString c.missingCount])

/-- Modelled from the spec: dispatch of the analysis handlers (§4.3) for a
recognized (non-`none`) tag.  Every handler fails with `NoDatasetError` when
the session has no registered Dataset Entry; with one, each returns its
block (handler bodies follow §4.3; the histogram target-column analysis is
elided into its success block since no claim depends on it). -/
def runHandler (tag : IntentTag) (entry : Option DatasetEntry) :
    Except HandlerError Block :=
  match entry with
  | Option.none => .error HandlerError.noDataset
  | some ds =>
      match tag with
      | .summarize =>
          .ok (Block.table "Summary"
            [["rows", toString ds.rows], ["columns", toString ds.columns.length],
             ["sampled", toString ds.sampled]])
      | .stats =>
          .ok (Block.table "Statistics"
            (ds.columns.map fun c => [c.name, c.inferredType]))
      | .missing =>
          match missingHandler (some ds) with
          | .ok r => .ok (renderMissingReport r)
          | .error e => .error e
      | .histogram => .ok (Block.image "histogram")
      | .schema =>
          .ok (Block.table "Schema"
            (ds.columns.map fun c => [c.name, c.inferredType, toString c.missingCount]))
      | .sample =>
          .ok (Block.table "Sample" [])
      | .none => .error HandlerError.noDataset

/-- Modelled from the spec: the deterministic mock completion of the Chat
Fallback Adapter (§4.4; the fixed text is documented in `ENV_SETUP.md`). -/
def mockChatResponse : String :=
  "[Mock Response] I'm a helpful AI assistant! This is a mock response because no API key is configured."

/-- Modelled from the spec: `complete(conversation_history)` of the Chat
Fallback Adapter (§4.4): delegate to the external provider when a credential
is configured and the call succeeds; otherwise return the fixed mock text. -/
def complete (apiKeyConfigured : Bool) (provider : List String → Option String)
    (history : List String) : String :=
  if apiKeyConfigured then
    match provider history with
    | some t => t
    | Option.none => mockChatResponse
  else mockChatResponse

/-- Modelled from the spec: a human-readable description of a handler error,
used for the alert block. -/
def describeHandlerError : HandlerError → String
  | .noDataset => "No dataset registered for this session"
  | .columnNotFound c => "Column not found: " ++ c
  | .unsupportedType c => "Unsupported column type: " ++ c

/-- Modelled from the spec: the orchestrator (§4.5): classify the message;
for a recognized tag run the matching analysis handler, degrading to the
Chat Fallback Adapter on `NoDatasetError` (exactly as if the tag were
`none`); surface any other handler failure as an alert block; for `none`
call the Chat Fallback Adapter. -/
def handleMessage (apiKeyConfigured : Bool) (provider : List String → Option String)
    (registry : Option DatasetEntry) (history : List String) (text : String) :
    Envelope :=
  let tag := classify text
  match tag with
  | IntentTag.none =>
      { success := true
        block := Block.text (complete apiKeyConfigured provider history)
        intent := IntentTag.none }
  | t =>
      match runHandler t registry with
      | .ok b => { success := true, block := b, intent := t }
      | .error HandlerError.noDataset =>
          { success := true
            block := Block.text (complete apiKeyConfigured provider history)
            intent := t }
      | .error e =>
          { success := false
            block := Block.alert (describeHandlerError e)
            intent := t }

/-! ## Concrete inputs used by witnesses and counterexamples -/

/-- An environment in which every backend API call succeeds. -/
def allOkApi : ApiOracle :=
  { uploadCSVOk := fun _ => true
    uploadCSVFromURLOk := fun _ => true
    uploadImageOk := fun _ => true
    imageText := fun _ => "image description"
    sendChatOk := true }

/-- A send with a CSV URL whose matched string also occurs earlier in the
text, overlapping other text. -/
def overlapState : SendState :=
  { isLoading := false, isUploading := false, userPresent := true
    textInput := "http://a.csvX http://a.csv", selectedFile := Option.none
    chatId := some "c1", sessionId := some "s1" }

/-- An ordinary send whose text carries a CSV URL. -/
def urlState : SendState :=
  { isLoading := false, isUploading := false, userPresent := true
    textInput := "hello http://data.example/file.csv world"
    selectedFile := Option.none
    chatId := some "c1", sessionId := some "s1" }

/-- A send attempted while a previous send is still in flight. -/
def loadingState : SendState :=
  { isLoading := true, isUploading := false, userPresent := true
    textInput := "hi", selectedFile := Option.none
    chatId := some "c1", sessionId := some "s1" }

/-- The dataset of the spec's worked `missing` example: columns `A` (0
missing), `B` (3 missing), `C` (3 missing). -/
def exampleDS : DatasetEntry :=
  { columns := [⟨"A", "integer", 0⟩, ⟨"B", "integer", 3⟩, ⟨"C", "integer", 3⟩]
    rows := 10, originalRows := 10, sampled := false }

/-! ## Theorems -/

/-- C5 (counterexample): the claim says `getErrorMessage` returns the
`message` field whenever it is present; but on
`{message: "", error: "boom"}` the `message` field is present, yet the code
(which tests JavaScript truthiness, and `""` is falsy) returns the `error`
field `"boom"` instead of `""`. -/
theorem getErrorMessage_empty_message_not_returned :
    getErrorMessage (JSValue.vobj (some (JSValue.vstr "")) (some (JSValue.vstr "boom")))
      = JSValue.vstr "boom" ∧
    JSValue.vstr "boom" ≠ JSValue.vstr "" := by
  refine ⟨rfl, ?_⟩
  intro h
  injection h with h
  exact absurd h (by decide)

/-- C5 (amended): `getErrorMessage` is total — a case-complete
characterization: on a string it returns the input; on an object it returns
the `message` field when present and truthy, else the `error` field when
present and truthy, else the fixed fallback; on every non-string non-object
value it returns the fixed fallback. -/
theorem getErrorMessage_total_cases (e : JSValue) :
    (∀ s, e = JSValue.vstr s → getErrorMessage e = JSValue.vstr s) ∧
    (∀ msg err m, e = JSValue.vobj msg err → msg = some m → truthy m = true →
      getErrorMessage e = m) ∧
    (∀ msg err v, e = JSValue.vobj msg err → truthyOpt msg = false → err = some v →
      truthy v = true → getErrorMessage e = v) ∧
    (∀ msg err, e = JSValue.vobj msg err → truthyOpt msg = false → truthyOpt err = false →
      getErrorMessage e = JSValue.vstr unexpectedErrorMessage) ∧
    ((∀ s, e ≠ JSValue.vstr s) → (∀ msg err, e ≠ JSValue.vobj msg err) →
      getErrorMessage e = JSValue.vstr unexpectedErrorMessage) := by
  refine ⟨?_, ?_, ?_, ?_, ?_⟩
  · rintro s rfl; rfl
  · rintro msg err m rfl rfl hm
    simp [getErrorMessage, truthyOpt, hm]
  · rintro msg err v rfl hmsg rfl hv
    simp only [getErrorMessage, hmsg]
    simp [truthyOpt, hv]
  · rintro msg err rfl hmsg herr
    simp [getErrorMessage, hmsg, herr]
  · intro hs hobj
    cases e with
    | vstr s => exact absurd rfl (hs s)
    | vobj m er => exact absurd rfl (hobj m er)
    | vnum n => rfl
    | vbool b => rfl
    | vnull => rfl
    | vundefined => rfl

/-- C5 (witness): the amended characterization applied to the concrete
object `{message: "net down"}`. -/
theorem getErrorMessage_total_cases_witness :
    getErrorMessage (JSValue.vobj (some (JSValue.vstr "net down")) Option.none)
      = JSValue.vstr "net down" :=
  (getErrorMessage_total_cases _).2.1 _ _ _ rfl rfl (by decide)

/-- C6: whenever the message produced by `getErrorMessage`, lowercased,
contains the substring "mock response" or the substring "no api key",
`getErrorHint` returns the fixed API-key configuration hint (the check is
the first in the chain, so no other hint can shadow it). -/
theorem getErrorHint_mock_mode (e : JSValue) (s : String)
    (hmsg : getErrorMessage e = JSValue.vstr s)
    (htrig : strIncludes (jsToLower s) "mock response" = true ∨
      strIncludes (jsToLower s) "no api key" = true) :
    getErrorHint e = some (some apiKeyHint) := by
  unfold getErrorHint
  rw [hmsg]
  unfold getErrorHintFromMessage
  rcases htrig with h | h <;> simp [h]

/-- C6 (witness): the hint fires on the concrete error string
"OpenRouter Mock Response used". -/
theorem getErrorHint_mock_mode_witness :
    getErrorHint (JSValue.vstr "OpenRouter Mock Response used") = some (some apiKeyHint) :=
  getErrorHint_mock_mode _ "OpenRouter Mock Response used" rfl (Or.inl (by decide))

/-- Helper: `handleSend` issues an upload request only for the pending
attachment — with no file selected, no trace ever contains a CSV-file or
image upload effect. -/
theorem no_upload_without_selection (api : ApiOracle) (s : SendState)
    (hf : s.selectedFile = Option.none) (name : String) :
    Effect.apiUploadCSV name ∉ handleSendEffects api s ∧
    Effect.apiUploadImage name ∉ handleSendEffects api s := by
  unfold handleSendEffects
  rw [hf]
  constructor <;>
  · split
    · simp
    · split
      · simp
      · cases hm : csvUrlFirstMatch (jsTrim s.textInput) with
        | none =>
            cases hc : s.chatId <;>
              simp only [Option.isNone_none, Option.isNone_some, if_true, if_false,
                sendTextEffects] <;>
              (try split_ifs) <;> simp
        | some url =>
            cases hs : s.sessionId with
            | none =>
                cases hc : s.chatId <;>
                  simp only [uploadCSVFromURLEffects, Option.isNone_none,
                    Option.isNone_some, if_true, if_false] <;>
                  (try split_ifs) <;> simp
            | some sid =>
                cases hok : api.uploadCSVFromURLOk url <;>
                cases hc : s.chatId <;>
                  simp only [uploadCSVFromURLEffects, hok, Option.isNone_none,
                    Option.isNone_some, if_true, if_false, sendTextEffects] <;>
                  (try split_ifs) <;> simp

/-- C3: a selected file whose (lowercased) name ends in `.csv` but whose size
exceeds the 20 * 1024 * 1024 byte ceiling is rejected by
`handleCSVFileSelect` with the size toast; it is never stored as the pending
attachment, and since `handleSend` only issues CSV-file upload requests for
the pending attachment, no parse or upload of the file is ever requested. -/
theorem handleCSVFileSelect_oversize (f : JSFile)
    (hcsv : List.isSuffixOf ".csv".data (jsToLower f.name).data = true)
    (hsize : f.size > maxCSVSizeBytes) :
    handleCSVFileSelect (some f) = SelectResult.rejectedSize "File too large. Maximum size: 20MB" ∧
    (∀ g, handleCSVFileSelect (some f) ≠ SelectResult.accepted g) ∧
    (∀ api s, s.selectedFile = Option.none → ∀ name,
      Effect.apiUploadCSV name ∉ handleSendEffects api s) := by
  have h1 : handleCSVFileSelect (some f)
      = SelectResult.rejectedSize "File too large. Maximum size: 20MB" := by
    simp [handleCSVFileSelect, hcsv, hsize]
  refine ⟨h1, ?_, ?_⟩
  · intro g hg
    rw [h1] at hg
    exact SelectResult.noConfusion hg
  · intro api s hf name
    exact (no_upload_without_selection api s hf name).1

/-- C3 (witness): a 20MB + 1 byte CSV file is rejected for size. -/
theorem handleCSVFileSelect_oversize_witness :
    handleCSVFileSelect (some ⟨"data.csv", 20971521, "text/csv"⟩)
      = SelectResult.rejectedSize "File too large. Maximum size: 20MB" :=
  (handleCSVFileSelect_oversize ⟨"data.csv", 20971521, "text/csv"⟩
    (by decide) (by decide)).1

/-- C9: `handleImageFileSelect` accepts a file exactly when its MIME type is
one of `image/jpeg`, `image/png`, `image/jpg` and its size is at most
10 * 1024 * 1024 bytes; any other file yields an error toast and the pending
attachment stays unset, and `handleSend` never issues an image upload
request without a pending attachment. -/
theorem handleImageFileSelect_spec (f : JSFile) :
    (handleImageFileSelect (some f) = SelectResult.accepted f ↔
      f.type ∈ allowedImageTypes ∧ f.size ≤ maxImageSizeBytes) ∧
    (f.type ∉ allowedImageTypes →
      handleImageFileSelect (some f)
        = SelectResult.rejectedType "Only PNG and JPG images are allowed") ∧
    (f.type ∈ allowedImageTypes → f.size > maxImageSizeBytes →
      handleImageFileSelect (some f)
        = SelectResult.rejectedSize "File too large. Maximum size: 10MB") ∧
    (∀ g, handleImageFileSelect (some f) = SelectResult.accepted g → g = f) ∧
    (∀ api s, s.selectedFile = Option.none → ∀ name,
      Effect.apiUploadImage name ∉ handleSendEffects api s) := by
  refine ⟨?_, ?_, ?_, ?_, ?_⟩
  · by_cases hmem : f.type ∈ allowedImageTypes <;>
      by_cases hsz : maxImageSizeBytes < f.size <;>
      simp [handleImageFileSelect, hmem, hsz] <;> omega
  · intro ht
    by_cases hsz : maxImageSizeBytes < f.size <;>
      simp [handleImageFileSelect, ht, hsz]
  · intro ht hsz
    simp [handleImageFileSelect, ht, hsz]
  · intro g
    by_cases hmem : f.type ∈ allowedImageTypes <;>
      by_cases hsz : maxImageSizeBytes < f.size <;>
      simp [handleImageFileSelect, hmem, hsz] <;>
      intro h <;> exact h.symm
  · intro api s hf name
    exact (no_upload_without_selection api s hf name).2

/-- C9 (witness): an 8MB PNG is accepted; instantiating the rejection clause,
an 11MB PNG is rejected for size. -/
theorem handleImageFileSelect_spec_witness :
    handleImageFileSelect (some ⟨"a.png", 8388608, "image/png"⟩)
      = SelectResult.accepted ⟨"a.png", 8388608, "image/png"⟩ ∧
    handleImageFileSelect (some ⟨"b.png", 11534336, "image/png"⟩)
      = SelectResult.rejectedSize "File too large. Maximum size: 10MB" :=
  ⟨(handleImageFileSelect_spec ⟨"a.png", 8388608, "image/png"⟩).1.mpr
      ⟨by decide, by decide⟩,
   (handleImageFileSelect_spec ⟨"b.png", 11534336, "image/png"⟩).2.2.1
      (by decide) (by decide)⟩

/-- C10: under any of the frame guards — a send or upload already in flight,
no authenticated user, or empty trimmed text with no selected file —
`handleSend` performs no state change: its trace is empty or a single error
toast, and in particular contains no chat or message document writes and no
backend API calls. -/
theorem handleSend_guard_frame (api : ApiOracle) (s : SendState)
    (h : s.isLoading = true ∨ s.isUploading = true ∨ s.userPresent = false ∨
      (jsTrim s.textInput = "" ∧ s.selectedFile = Option.none)) :
    (handleSendEffects api s = [] ∨
      handleSendEffects api s = [Effect.toastError "Please enter a message or select a file"]) ∧
    ∀ e ∈ handleSendEffects api s, stateChanging e = false := by
  have hmain : handleSendEffects api s = [] ∨
      handleSendEffects api s = [Effect.toastError "Please enter a message or select a file"] := by
    by_cases hb : (s.isLoading || s.isUploading || !s.userPresent) = true
    · left
      unfold handleSendEffects
      rw [if_pos hb]
    · rcases h with h | h | h | ⟨h1, h2⟩
      · exact absurd (by simp [h]) hb
      · exact absurd (by simp [h]) hb
      · exact absurd (by simp [h]) hb
      · right
        unfold handleSendEffects
        rw [if_neg hb, if_pos (by simp [h1, h2])]
  refine ⟨hmain, ?_⟩
  intro e he
  rcases hmain with hm | hm <;> rw [hm] at he
  · exact absurd he (List.not_mem_nil e)
  · rcases List.mem_singleton.mp he with rfl
    rfl

/-- C4 (amended): with no file selected, no send or upload in flight, an
authenticated user, a captured session id, and a CSV URL matched in the
trimmed text whose ingestion succeeds, `handleSend` ingests the dataset via
the CSV-from-URL endpoint and removes the first occurrence of the matched
URL string from the text; the user message sent — if the stripped remainder
is non-empty — is exactly that remainder, and nothing else is ever sent as
the user's chat message. -/
theorem handleSend_csvURL (api : ApiOracle) (s : SendState) (url : String)
    (hl : s.isLoading = false) (hu : s.isUploading = false)
    (hw : s.userPresent = true) (hf : s.selectedFile = Option.none)
    (hsid : s.sessionId.isSome = true)
    (hm : csvUrlFirstMatch (jsTrim s.textInput) = some url)
    (hok : api.uploadCSVFromURLOk url = true) :
    Effect.apiUploadCSVFromURL url ∈ handleSendEffects api s ∧
    (jsTrim (stringReplaceFirst (jsTrim s.textInput) url) ≠ "" →
      Effect.addMessageDoc "user" (jsTrim (stringReplaceFirst (jsTrim s.textInput) url))
        ∈ handleSendEffects api s ∧
      Effect.apiSendChatMessage (jsTrim (stringReplaceFirst (jsTrim s.textInput) url))
        ∈ handleSendEffects api s) ∧
    (∀ c, Effect.addMessageDoc "user" c ∈ handleSendEffects api s →
      c = jsTrim (stringReplaceFirst (jsTrim s.textInput) url)) ∧
    (jsTrim (stringReplaceFirst (jsTrim s.textInput) url) = "" →
      ∀ c, Effect.addMessageDoc "user" c ∉ handleSendEffects api s) := by
  obtain ⟨sid, hs⟩ := Option.isSome_iff_exists.mp hsid
  have hne : ¬ jsTrim s.textInput = "" := by
    intro contra
    rw [contra] at hm
    have h0 : csvUrlFirstMatch "" = (Option.none : Option String) := rfl
    rw [h0] at hm
    exact Option.noConfusion hm
  have htrace : handleSendEffects api s =
      (if s.chatId.isNone then [Effect.createChatDoc] else []) ++
      ((Effect.apiUploadCSVFromURL url :: Effect.toastSuccess "CSV uploaded successfully!" ::
        (match s.chatId with
         | some _ => [Effect.addMessageDoc "system" csvUploadedSystemMessage]
         | Option.none => [])) ++
       sendTextEffects api (jsTrim (stringReplaceFirst (jsTrim s.textInput) url))) := by
    unfold handleSendEffects
    rw [hl, hu, hw, hf, hm, hs]
    simp [uploadCSVFromURLEffects, hok, hne]
  refine ⟨?_, ?_, ?_, ?_⟩
  · rw [htrace]
    simp
  · intro hnt
    rw [htrace]
    constructor <;> cases s.chatId <;> simp [sendTextEffects, hnt]
  · intro c hc
    rw [htrace] at hc
    by_cases hnt : jsTrim (stringReplaceFirst (jsTrim s.textInput) url) = "" <;>
      cases hchat : s.chatId <;> rw [hchat] at hc <;>
      cases hsc : api.sendChatOk <;>
      simp [sendTextEffects, hnt, hsc] at hc <;>
      exact hc
  · intro hnt c
    rw [htrace]
    cases s.chatId <;> simp [sendTextEffects, hnt]

/-- C4 (counterexample to the claim as stated): the claim says the matched
URL is removed from the text so only the remainder is sent; but
`replace(url, '')` removes the first occurrence of the matched string.  In
"http://a.csvX http://a.csv" the match is "http://a.csv", its first
occurrence is inside the leading token, and the message actually sent is
"X http://a.csv" — it still contains the URL. -/
theorem handleSend_csvURL_not_removed :
    csvUrlFirstMatch (jsTrim overlapState.textInput) = some "http://a.csv" ∧
    Effect.addMessageDoc "user" "X http://a.csv"
      ∈ handleSendEffects allOkApi overlapState ∧
    strIncludes "X http://a.csv" "http://a.csv" = true := by
  refine ⟨rfl, ?_, rfl⟩
  decide

/-- C4 (witness): on "hello http://data.example/file.csv world" the URL is
uploaded from and the remainder "hello  world" is the user message sent. -/
theorem handleSend_csvURL_witness :
    Effect.apiUploadCSVFromURL "http://data.example/file.csv"
      ∈ handleSendEffects allOkApi urlState ∧
    Effect.addMessageDoc "user" "hello  world" ∈ handleSendEffects allOkApi urlState :=
  ⟨(handleSend_csvURL allOkApi urlState "http://data.example/file.csv"
      rfl rfl rfl rfl rfl rfl rfl).1,
   ((handleSend_csvURL allOkApi urlState "http://data.example/file.csv"
      rfl rfl rfl rfl rfl rfl rfl).2.1 (by decide)).1⟩

/-- C10 (witness): with a send already in flight (`isLoading = true`) the
trace is empty. -/
theorem handleSend_guard_frame_witness :
    handleSendEffects allOkApi loadingState = [] ∨
    handleSendEffects allOkApi loadingState
      = [Effect.toastError "Please enter a message or select a file"] :=
  (handleSend_guard_frame allOkApi loadingState (Or.inl rfl)).1

/-- C1: for a message whose classified intent is recognized (not `none`) but
whose session has no registered Dataset Entry, `handleMessage` returns the
Chat Fallback Adapter's output rendered as an ordinary text response — the
same block the `none`-tag path produces (the empty message classifies to
`none`) — and never an alert derived from the `NoDatasetError`. -/
theorem handleMessage_no_dataset_degrades (key : Bool)
    (provider : List String → Option String) (history : List String) (text : String)
    (htag : classify text ≠ IntentTag.none) :
    handleMessage key provider Option.none history text =
      { success := true
        block := Block.text (complete key provider history)
        intent := classify text } ∧
    (handleMessage key provider Option.none history text).block =
      (handleMessage key provider Option.none history "").block ∧
    ∀ m, (handleMessage key provider Option.none history text).block ≠ Block.alert m := by
  have hmain : handleMessage key provider Option.none history text =
      { success := true
        block := Block.text (complete key provider history)
        intent := classify text } := by
    cases hc : classify text <;> simp [handleMessage, hc, runHandler]
  refine ⟨hmain, ?_, ?_⟩
  · rw [hmain]
    rfl
  · intro m
    rw [hmain]
    simp

/-- C1 (witness): a "summarize" question in a session with no dataset gets
the fallback (mock) completion as an ordinary text block. -/
theorem handleMessage_no_dataset_degrades_witness :
    handleMessage false (fun _ => Option.none) Option.none [] "summarize my data" =
      { success := true
        block := Block.text mockChatResponse
        intent := IntentTag.summarize } :=
  (handleMessage_no_dataset_degrades false (fun _ => Option.none) [] "summarize my data"
    (by decide)).1

/-- Helper: `maxMissingColumn` finds no column only on an empty column
list. -/
theorem maxMissingColumn_eq_none_iff (l : List ColumnStat) :
    maxMissingColumn l = Option.none ↔ l = [] := by
  cases l with
  | nil => simp [maxMissingColumn]
  | cons c rest =>
      simp only [maxMissingColumn]
      cases h : maxMissingColumn rest <;> simp [h]
      split <;> simp

/-- Helper: the column returned by `maxMissingColumn` dominates every column,
and every column strictly before it in declared order has a strictly smaller
missing count (so among ties the first in declared order wins). -/
theorem maxMissingColumn_spec (l : List ColumnStat) (m : ColumnStat)
    (h : maxMissingColumn l = some m) :
    (∀ c ∈ l, c.missingCount ≤ m.missingCount) ∧
    ∃ pre suf, l = pre ++ m :: suf ∧ ∀ c ∈ pre, c.missingCount < m.missingCount := by
  induction l generalizing m with
  | nil => exact absurd h (by simp [maxMissingColumn])
  | cons c rest ih =>
      simp only [maxMissingColumn] at h
      cases hr : maxMissingColumn rest with
      | none =>
          rw [hr] at h
          simp only [Option.some.injEq] at h
          subst h
          have hrest : rest = [] := (maxMissingColumn_eq_none_iff rest).mp hr
          subst hrest
          exact ⟨by simp, [], [], rfl, by simp⟩
      | some b =>
          rw [hr] at h
          have h : (if b.missingCount > c.missingCount then some b else some c) = some m := h
          by_cases hbc : b.missingCount > c.missingCount
          · rw [if_pos hbc] at h
            simp only [Option.some.injEq] at h
            subst h
            obtain ⟨hmax, pre, suf, heq, hpre⟩ := ih _ hr
            refine ⟨?_, c :: pre, suf, by simp [heq], ?_⟩
            · intro x hx
              rcases List.mem_cons.mp hx with rfl | hx
              · exact Nat.le_of_lt hbc
              · exact hmax x hx
            · intro x hx
              rcases List.mem_cons.mp hx with rfl | hx
              · exact hbc
              · exact hpre x hx
          · rw [if_neg hbc] at h
            simp only [Option.some.injEq] at h
            subst h
            obtain ⟨hmax, -⟩ := ih _ hr
            refine ⟨?_, [], rest, rfl, by simp⟩
            intro x hx
            rcases List.mem_cons.mp hx with rfl | hx
            · exact Nat.le_refl _
            · exact Nat.le_trans (hmax x hx) (Nat.not_lt.mp hbc)

/-- C2: on any registered dataset (a registered entry has at least one
column), the `missing` handler returns the full per-column breakdown and a
top column whose missing count is maximal; among columns tying for the
maximum, the returned one comes first in the dataset's declared column
order. -/
theorem missingHandler_spec (ds : DatasetEntry) (hne : ds.columns ≠ []) :
    ∃ r, missingHandler (some ds) = Except.ok r ∧
      r.breakdown = ds.columns ∧
      r.topColumn ∈ ds.columns ∧
      (∀ c ∈ ds.columns, c.missingCount ≤ r.topColumn.missingCount) ∧
      ∃ pre suf, ds.columns = pre ++ r.topColumn :: suf ∧
        ∀ c ∈ pre, c.missingCount < r.topColumn.missingCount := by
  cases hmax : maxMissingColumn ds.columns with
  | none => exact absurd ((maxMissingColumn_eq_none_iff _).mp hmax) hne
  | some top =>
      obtain ⟨hub, pre, suf, heq, hstrict⟩ := maxMissingColumn_spec _ _ hmax
      refine ⟨⟨top, ds.columns⟩, ?_, rfl, ?_, hub, pre, suf, heq, hstrict⟩
      · simp [missingHandler, hmax]
      · rw [heq]
        exact List.mem_append_right _ (List.mem_cons_self _ _)

/-- C2 (witness): the spec's worked example — columns `A` (0 missing), `B`
(3 missing), `C` (3 missing) — yields `B`, the first in declared order among
the tied maxima, with the full breakdown. -/
theorem missingHandler_spec_witness :
    (∃ r, missingHandler (some exampleDS) = Except.ok r ∧
      r.breakdown = exampleDS.columns ∧
      r.topColumn ∈ exampleDS.columns ∧
      (∀ c ∈ exampleDS.columns, c.missingCount ≤ r.topColumn.missingCount) ∧
      ∃ pre suf, exampleDS.columns = pre ++ r.topColumn :: suf ∧
        ∀ c ∈ pre, c.missingCount < r.topColumn.missingCount) ∧
    missingHandler (some exampleDS)
      = Except.ok ⟨⟨"B", "integer", 3⟩, exampleDS.columns⟩ :=
  ⟨missingHandler_spec exampleDS (by decide), rfl⟩

/-- C7: after every `register` call the sampling invariant holds — the
sampled flag is set exactly when the parsed row count exceeds the ceiling,
a set flag comes with `originalRows` strictly greater than `rows`, and an
unset flag comes with the two row counts equal. -/
theorem register_sampled_invariant (ceiling : Nat) (cols : List ColumnStat)
    (dataRows : List (List String)) :
    ((register ceiling cols dataRows).sampled = true →
      (register ceiling cols dataRows).originalRows > (register ceiling cols dataRows).rows) ∧
    ((register ceiling cols dataRows).sampled = false →
      (register ceiling cols dataRows).originalRows = (register ceiling cols dataRows).rows) ∧
    (dataRows.length > ceiling → (register ceiling cols dataRows).sampled = true) ∧
    (dataRows.length ≤ ceiling → (register ceiling cols dataRows).sampled = false) := by
  by_cases h : dataRows.length > ceiling <;>
    simp [register, h, List.length_take] <;> omega

/-- C7 (witness): registering three rows against a ceiling of two sets the
flag and keeps strictly fewer rows than the original count. -/
theorem register_sampled_invariant_witness :
    (register 2 [] [["a"], ["b"], ["c"]]).sampled = true ∧
    (register 2 [] [["a"], ["b"], ["c"]]).originalRows
      > (register 2 [] [["a"], ["b"], ["c"]]).rows :=
  ⟨(register_sampled_invariant 2 [] [["a"], ["b"], ["c"]]).2.2.1 (by decide),
   (register_sampled_invariant 2 [] [["a"], ["b"], ["c"]]).1
     ((register_sampled_invariant 2 [] [["a"], ["b"], ["c"]]).2.2.1 (by decide))⟩

/-- Helper: the classification of the message at a given position in a
session transcript is the pure classification of that message. -/
theorem classifySession_get_middle (l1 l2 : List String) (x : String) :
    (classifySession (l1 ++ x :: l2)).get? l1.length = some (classify x) := by
  unfold classifySession
  induction l1 with
  | nil => rfl
  | cons a l ih => simpa using ih

/-- C8: `classify` is deterministic and stateless — the tag assigned to a
message in a session transcript does not depend on the calls made before or
after it: any two transcripts containing the same text yield the same tag at
its position, namely its pure classification. -/
theorem classify_deterministic (pre1 post1 pre2 post2 : List String) (t : String) :
    (classifySession (pre1 ++ t :: post1)).get? pre1.length =
      (classifySession (pre2 ++ t :: post2)).get? pre2.length ∧
    (classifySession (pre1 ++ t :: post1)).get? pre1.length = some (classify t) := by
  have h1 := classifySession_get_middle pre1 post1 t
  have h2 := classifySession_get_middle pre2 post2 t
  exact ⟨h1.trans h2.symm, h1⟩

end Chatbot
